import Mathlib

/-
Verification of the harmony service-selection core: a shallow embedding of the
elimination pipeline (`chooseServiceConfig` and its four filter stages), the
service factory (`buildService`), and the local-process adapter's exit handler,
together with theorems settling the specification's claims about them.

JavaScript conventions are embedded explicitly: a possibly-absent string field
is `Option String`, and JS truthiness of such a field ("" and undefined are
falsy) is `jsTruthyStr`.  In-place mutation of the operation and of the no-op
singleton's `message` field is embedded as explicit state passing: every stage
returns the (possibly updated) operation, and `chooseServiceConfig` threads a
`SelectionState` holding the singleton's mutable `message` field, with
`ChosenConfig.noOpRef` denoting a reference to that singleton.
-/

namespace Harmony

/-- Embeds the `capabilities.subsetting` record of a service configuration.
The source field named `variable` is a Lean keyword, so it is called
`variableSupport` here; `lodash.get` defaults (absent path means `false`)
are folded into the field defaults. -/
structure SubsettingCapabilities where
  variableSupport : Bool := false
  bbox : Bool := false
deriving Repr, DecidableEq

/-- Embeds the `capabilities` record of a service configuration; the
`lodash.get` default `[]` for `capabilities.output_formats` is folded into
the field default. -/
structure ServiceCapabilities where
  output_formats : List String := []
  subsetting : SubsettingCapabilities := {}
deriving Repr, DecidableEq

/-- Embeds the `type` record of a service configuration: the mechanism tag
name plus the two flags consulted by `buildService`. -/
structure ServiceType where
  name : String
  synchronous_only : Bool := false
  single_granule_requests : Bool := false
deriving Repr, DecidableEq

/-- Embeds `ServiceConfig` from `base-service`: one configured backend.
`message` is the dynamically-set explanation field carried by the no-op
fallback singleton. -/
structure ServiceConfig where
  name : String := ""
  type : ServiceType
  collections : List String := []
  capabilities : ServiceCapabilities := {}
  message : Option String := none
deriving Repr, DecidableEq

/-- Embeds one element of `operation.sources`: a collection id plus the
optional variable list (an absent or empty JS array both make
`s.variables && s.variableList.length > 0` false, so absence is modelled
as `[]`). -/
structure DataSource where
  collection : String
  variableList : List String := []
deriving Repr, DecidableEq

/-- Embeds the fields of `DataOperation` read or written by the selection
core.  `boundingRectangle` contents are never inspected by selection, only
its presence (`!!operation.boundingRectangle`). -/
structure DataOperation where
  sources : List DataSource := []
  outputFormat : Option String := none
  boundingRectangle : Option (List Int) := none
  callback : String := ""
deriving Repr, DecidableEq

/-- Embeds `RequestContext`: the caller's acceptable mime types in
preference order, possibly absent. -/
structure RequestContext where
  requestedMimeTypes : Option (List String) := none
deriving Repr, DecidableEq

/-- JS truthiness of a possibly-absent string: `undefined` and `""` are
falsy, any other string is truthy. -/
def jsTruthyStr : Option String → Bool
  | none => false
  | some s => !(s == "")

/-- Embeds `context.requestedMimeTypes && context.requestedMimeTypes.length > 0`. -/
def hasRequestedMimeTypes (context : RequestContext) : Bool :=
  match context.requestedMimeTypes with
  | none => false
  | some mts => decide (0 < mts.length)

/-- The top-level type of a mime string: the characters before the first
slash. -/
def mimeMainType (m : String) : String :=
  String.mk (m.data.takeWhile (fun c => !(c == '/')))

/-- Modelled from the spec: `isMimeTypeAccepted` lives in
`util/content-negotiation`, which is not among the provided sources.  Per
§4.1 ("exact or wildcard match") and §9 ("a simple mime-pattern containment
check" with wildcard subtype/top-level forms such as `*/*` and `image/*`), a
supplied value is accepted by a pattern iff the pattern is `*` or `*/*`,
equals the value exactly, or is `<type>/*` and the value's top-level type is
`<type>`. -/
def isMimeTypeAccepted (value : String) (pattern : String) : Bool :=
  pattern == "*" || pattern == "*/*" || value == pattern ||
    (pattern == mimeMainType pattern ++ "/*" && mimeMainType value == mimeMainType pattern)

/-- Modelled from the spec: `listToText` lives in `util/string`, which is
not among the provided sources.  It renders a list of phrases as English
running text; the claims use it only as the rendering of a phrase list, so
it is modelled as the conventional comma/`and` list.  The recursive case is
right-nested on purpose so that the rendering of `h :: t` is literally `h`
followed by a remainder. -/
def listToText : List String → String
  | [] => ""
  | [a] => a
  | a :: rest => a ++ ((if rest.length == 1 then " and " else ", ") ++ listToText rest)

/-- Embeds `isCollectionMatch`: every source collection of the operation is
served by the configuration. -/
def isCollectionMatch (operation : DataOperation) (serviceConfig : ServiceConfig) : Bool :=
  operation.sources.all fun source => serviceConfig.collections.contains source.collection

/-- Embeds `selectServicesForFormat`: keep configurations one of whose
declared output formats is accepted by the requested format.  The JS filter
callback returns the *found string* itself, so a found empty string is falsy
and excludes the configuration; `jsTruthyStr` reproduces that. -/
def selectServicesForFormat (format : String) (configs : List ServiceConfig) :
    List ServiceConfig :=
  configs.filter fun config =>
    jsTruthyStr (config.capabilities.output_formats.find? fun f => isMimeTypeAccepted f format)

/-- Embeds the `for (const mimeType of context.requestedMimeTypes)` loop of
`selectFormat`: the accumulator is the current `outputFormat`; when some
service matches the mime type, the accumulator is overwritten with the first
matching format of the first such service; a truthy accumulator breaks the
loop. -/
def selectFormatLoop (configs : List ServiceConfig) :
    Option String → List String → Option String
  | outputFormat, [] => outputFormat
  | outputFormat, mimeType :: rest =>
    let services := selectServicesForFormat mimeType configs
    let outputFormat := match services with
      | [] => outputFormat
      | s :: _ => s.capabilities.output_formats.find? fun f => isMimeTypeAccepted f mimeType
    if jsTruthyStr outputFormat then outputFormat
    else selectFormatLoop configs outputFormat rest

/-- Embeds `selectFormat`: returns the operation's own format when truthy,
otherwise iterates the context's acceptable mime types in preference
order. -/
def selectFormat (operation : DataOperation) (context : RequestContext)
    (configs : List ServiceConfig) : Option String :=
  let outputFormat := operation.outputFormat
  if !jsTruthyStr outputFormat && hasRequestedMimeTypes context then
    selectFormatLoop configs outputFormat (context.requestedMimeTypes.getD [])
  else outputFormat

/-- Embeds `requiresVariableSubsetting`: some source carries a non-empty
variable list. -/
def requiresVariableSubsetting (operation : DataOperation) : Bool :=
  decide (0 < (operation.sources.filter fun s => decide (0 < s.variableList.length)).length)

/-- Embeds `supportsVariableSubsetting`: keep configurations flagged with
`capabilities.subsetting.variable`. -/
def supportsVariableSubsetting (configs : List ServiceConfig) : List ServiceConfig :=
  configs.filter fun config => config.capabilities.subsetting.variableSupport

/-- Embeds `requiresSpatialSubsetting`: `!!operation.boundingRectangle`
(any present array, even empty, is truthy). -/
def requiresSpatialSubsetting (operation : DataOperation) : Bool :=
  operation.boundingRectangle.isSome

/-- Embeds `supportsSpatialSubsetting`: keep configurations flagged with
`capabilities.subsetting.bbox`. -/
def supportsSpatialSubsetting (configs : List ServiceConfig) : List ServiceConfig :=
  configs.filter fun config => config.capabilities.subsetting.bbox

/-- Embeds the module-level `noOpService` constant (its mutable `message`
field lives in `SelectionState`; see `derefChosen`). -/
def noOpService : ServiceConfig :=
  { name := "noOpService"
    type := { name := "noOp" }
    capabilities := { output_formats := ["application/json"] } }

/-- Embeds the error taxonomy of `chooseServiceConfig`'s catch block: a
thrown `UnsupportedOperation` versus any other thrown error. -/
inductive StageError where
  | unsupportedOperation (message : String)
  | otherError (message : String)
deriving Repr, DecidableEq

/-- The result of one filter stage: the (possibly mutated) operation paired
with either the surviving configurations or a thrown error. -/
abbrev FilterResult := DataOperation × Except StageError (List ServiceConfig)

/-- The uniform signature of the filter stages chained by
`chooseServiceConfig`. -/
abbrev FilterFn := DataOperation → RequestContext → List ServiceConfig → FilterResult

/-- Embeds `filterCollectionMatches`. -/
def filterCollectionMatches (operation : DataOperation) (_context : RequestContext)
    (configs : List ServiceConfig) : FilterResult :=
  let matchList := configs.filter fun config => isCollectionMatch operation config
  if matchList.length == 0 then
    (operation, .error (.unsupportedOperation "no services are configured for the collection"))
  else (operation, .ok matchList)

/-- Embeds `filterVariableSubsettingMatches`. -/
def filterVariableSubsettingMatches (operation : DataOperation) (_context : RequestContext)
    (configs : List ServiceConfig) : FilterResult :=
  let variableSubsettingNeeded := requiresVariableSubsetting operation
  let matchList := if variableSubsettingNeeded then supportsVariableSubsetting configs else configs
  if matchList.length == 0 then
    (operation, .error (.unsupportedOperation
      "none of the services configured for the collection support variable subsetting"))
  else (operation, .ok matchList)

/-- Embeds the template fragment
`[$\x7boperation.outputFormat || context.requestedMimeTypes\x7d]` of the
output-format stage's error message: a JS array renders as its
comma-joined elements and `undefined` renders as the string
`"undefined"`. -/
def mimeTypesText (context : RequestContext) : String :=
  match context.requestedMimeTypes with
  | some l => String.intercalate "," l
  | none => "undefined"

/-- The string interpolated for `operation.outputFormat ||
context.requestedMimeTypes` (a falsy output format falls through to the
context's list). -/
def requestedFormatsText (operation : DataOperation) (context : RequestContext) : String :=
  match operation.outputFormat with
  | some s => if s == "" then mimeTypesText context else s
  | none => mimeTypesText context

/-- The error thrown by the output-format stage, interpolating the
operation as it stands when the throw happens. -/
def reformattingError (operation : DataOperation) (context : RequestContext) : StageError :=
  .unsupportedOperation
    ("none of the services configured for the collection support reformatting to any of the requested formats ["
      ++ (requestedFormatsText operation context ++ "]"))

/-- Embeds `filterOutputFormatMatches`, the only stage that mutates the
operation: when a concrete format is resolved, `operation.outputFormat` is
set before the surviving services are computed, and the thrown message reads
the operation *after* that mutation, exactly as in the source.  The source's
single trailing `services.length === 0` check is distributed over the three
branches here (in the middle branch `services` stays `[]`, so the stage
always throws there). -/
def filterOutputFormatMatches (operation : DataOperation) (context : RequestContext)
    (configs : List ServiceConfig) : FilterResult :=
  if jsTruthyStr operation.outputFormat || hasRequestedMimeTypes context then
    let outputFormat := selectFormat operation context configs
    if jsTruthyStr outputFormat then
      let operation2 := { operation with outputFormat := outputFormat }
      let services := selectServicesForFormat (outputFormat.getD "") configs
      if services.length == 0 then (operation2, .error (reformattingError operation2 context))
      else (operation2, .ok services)
    else (operation, .error (reformattingError operation context))
  else
    if configs.length == 0 then (operation, .error (reformattingError operation context))
    else (operation, .ok configs)

/-- Embeds `filterSpatialSubsettingMatches`. -/
def filterSpatialSubsettingMatches (operation : DataOperation) (_context : RequestContext)
    (configs : List ServiceConfig) : FilterResult :=
  let services :=
    if requiresSpatialSubsetting operation then supportsSpatialSubsetting configs else configs
  if services.length == 0 then
    (operation, .error (.unsupportedOperation
      "none of the services configured for the collection support spatial subsetting"))
  else (operation, .ok services)

/-- Embeds `unsupportedCombinationMessage`: re-derives which of variable
subsetting, spatial subsetting and reformatting were requested, filters out
the non-reformatting wildcard mime types `*` and `*/*`, and phrases the
result against the operation's collection names.  String concatenation is
right-nested on purpose (JS template literals carry no association). -/
def unsupportedCombinationMessage (operation : DataOperation) (context : RequestContext) :
    String :=
  let collections := operation.sources.map fun s => s.collection
  let formats : Option (List String) :=
    if jsTruthyStr operation.outputFormat then some [operation.outputFormat.getD ""]
    else context.requestedMimeTypes
  let formats := formats.map fun fs => fs.filter fun f => !(f == "*") && !(f == "*/*")
  let requestedOptions :=
    (if requiresVariableSubsetting operation then ["variable subsetting"] else []) ++
      ((if requiresSpatialSubsetting operation then ["spatial subsetting"] else []) ++
        (match formats with
         | some fs =>
           if 0 < fs.length then ["reformatting to " ++ listToText fs] else []
         | none => []))
  if 0 < requestedOptions.length then
    "the requested combination of operations: " ++
      (listToText requestedOptions ++ (" on " ++ (listToText collections ++ " is unsupported")))
  else
    "no operations can be performed on " ++ listToText collections

/-- Embeds the module-level `operationFilterFns` list, in source order. -/
def operationFilterFns : List FilterFn :=
  [filterCollectionMatches, filterVariableSubsettingMatches,
    filterOutputFormatMatches, filterSpatialSubsettingMatches]

/-- Embeds the `for (const filterFn of operationFilterFns)` loop of
`chooseServiceConfig`: chain the stages, threading the mutated operation,
stopping at the first thrown error (which carries the operation as mutated
so far, since JS mutation is in place). -/
def runFilters (filterFns : List FilterFn) (operation : DataOperation)
    (context : RequestContext) (configs : List ServiceConfig) : FilterResult :=
  match filterFns with
  | [] => (operation, .ok configs)
  | filterFn :: rest =>
    match filterFn operation context configs with
    | (operation2, .ok matchList) => runFilters rest operation2 context matchList
    | (operation2, .error e) => (operation2, .error e)

/-- The value returned by `chooseServiceConfig`: a real configuration
(`matches[0]`), a reference to the `noOpService` singleton, or JS
`undefined` (the unreachable `matches[0]` of an empty list). -/
inductive ChosenConfig where
  | config (c : ServiceConfig)
  | noOpRef
  | undef
deriving Repr, DecidableEq

/-- The module-level mutable state of the selection module: the current
value of the `noOpService` singleton's `message` field. -/
structure SelectionState where
  noOpMessage : Option String := none
deriving Repr, DecidableEq

/-- Embeds `chooseServiceConfig`, generalised over the stage list exactly as
the source separates the data `operationFilterFns` from the driver: run the
stages; on success return `matches[0]`; on a thrown `UnsupportedOperation`
overwrite the no-op singleton's `message` with
`unsupportedCombinationMessage` (computed on the operation as mutated so
far) and return the singleton; rethrow any other error unchanged. -/
def chooseServiceConfigWith (filterFns : List FilterFn) (operation : DataOperation)
    (context : RequestContext) (configs : List ServiceConfig) (st : SelectionState) :
    Except StageError (ChosenConfig × DataOperation × SelectionState) :=
  match runFilters filterFns operation context configs with
  | (operation2, .ok matchList) =>
    .ok (match matchList with | [] => .undef | c :: _ => .config c, operation2, st)
  | (operation2, .error (.unsupportedOperation _)) =>
    .ok (.noOpRef, operation2,
      { st with noOpMessage := some (unsupportedCombinationMessage operation2 context) })
  | (_operation2, .error (.otherError m)) => .error (.otherError m)

/-- Embeds `chooseServiceConfig` proper: the driver applied to the
configured `operationFilterFns`. -/
def chooseServiceConfig (operation : DataOperation) (context : RequestContext)
    (configs : List ServiceConfig) (st : SelectionState) :
    Except StageError (ChosenConfig × DataOperation × SelectionState) :=
  chooseServiceConfigWith operationFilterFns operation context configs st

/-- Dereference a chosen-configuration value in a given module state: a real
configuration is itself; the no-op reference shows the singleton with its
current `message`; JS `undefined` dereferences to nothing. -/
def derefChosen : ChosenConfig → SelectionState → Option ServiceConfig
  | .config c, _ => some c
  | .noOpRef, st => some { noOpService with message := st.noOpMessage }
  | .undef, _ => none

/-- The adapter classes registered in `serviceTypesToServiceClasses`,
embedded as tags. -/
inductive ServiceClassTag where
  | http
  | queue
  | argo
  | noOp
deriving Repr, DecidableEq

/-- Embeds the module-level `serviceTypesToServiceClasses` record as a
lookup by mechanism tag name; an unlisted name yields `none` (JS
`undefined`). -/
def serviceTypesToServiceClasses (typeName : String) : Option ServiceClassTag :=
  if typeName == "http" then some .http
  else if typeName == "queue" then some .queue
  else if typeName == "argo" then some .argo
  else if typeName == "noOp" then some .noOp
  else none

/-- The adapter instance returned by `buildService`: a base adapter of the
looked-up class, or that class wrapped by `AsynchronizerService`; each is
bound to the configuration and operation it was constructed with. -/
inductive BuiltService where
  | base (cls : ServiceClassTag) (config : ServiceConfig) (operation : DataOperation)
  | asynchronizer (cls : ServiceClassTag) (config : ServiceConfig) (operation : DataOperation)
deriving Repr, DecidableEq

/-- The error thrown by `buildService`: a `NotFoundError` carrying the
source's message (whose JS template interpolates the `type` object, which
renders as `[object Object]`). -/
inductive BuildError where
  | notFound (message : String)
deriving Repr, DecidableEq

/-- Embeds `buildService`: look up the adapter class registered for the
configuration's mechanism tag name; throw `NotFoundError` when unregistered;
wrap in the Asynchronizer when the type is flagged `synchronous_only` or
`single_granule_requests`, and return the base adapter otherwise. -/
def buildService (serviceConfig : ServiceConfig) (operation : DataOperation) :
    Except BuildError BuiltService :=
  match serviceTypesToServiceClasses serviceConfig.type.name with
  | none => .error (.notFound
      "Could not find an appropriate service class for type \"[object Object]\"")
  | some cls =>
    if serviceConfig.type.synchronous_only || serviceConfig.type.single_granule_requests then
      .ok (.asynchronizer cls serviceConfig operation)
    else
      .ok (.base cls serviceConfig operation)

/-- A synthetic failure notification posted by the local-process adapter: a
POST of an `error` message to the completion address's `/response`
endpoint. -/
structure FailureNotification where
  target : String
  error : String
deriving Repr, DecidableEq

/-- Embeds `childProcessAborted`: the one synthetic failure notification it
posts to the given callback URL. -/
def childProcessAborted (callbackUrl : String) : FailureNotification :=
  { target := callbackUrl ++ "/response"
    error := "Service request failed with an unknown error." }

/-- Embeds the `child.on` exit handler of `LocalDockerService._invokeAsync`:
the synthetic notifications sent when the child process exits.  `code` is
the child's exit code (present but never consulted by the handler) and
`urlBound` models `isUrlBound(originalCallback)` — from
`backends/service-response`, which is not among the provided sources;
modelled from the spec as: true iff the completion address has not yet
received a notification.  The `exit` event fires once per child process, so
one evaluation of this function is the adapter's entire post-exit
behaviour. -/
def childExitNotifications (originalCallback : String) (_code : Int) (urlBound : Bool) :
    List FailureNotification :=
  if urlBound then [childProcessAborted originalCallback] else []

/-- A concrete service configuration used by witnesses: serves collection
`C1`, no subsetting capabilities. -/
def svcA : ServiceConfig :=
  { name := "svc-a", type := { name := "http" }, collections := ["C1"] }

/-- A second concrete service configuration used by witnesses, identical in
capabilities to `svcA` but declared after it. -/
def svcB : ServiceConfig :=
  { name := "svc-b", type := { name := "http" }, collections := ["C1"] }

/-- The behavioural contract every filter stage satisfies: it leaves every
operation field but `outputFormat` unchanged, a surviving list is a
nonempty order-preserving sublist of the input, and any thrown error is an
`UnsupportedOperation`. -/
def StageSpec (f : FilterFn) : Prop :=
  ∀ operation context configs operation2 r,
    f operation context configs = (operation2, r) →
    ({ operation2 with outputFormat := operation.outputFormat } = operation) ∧
    (∀ ms, r = .ok ms → ms.Sublist configs ∧ ms ≠ []) ∧
    (∀ e, r = .error e → ∃ m, e = .unsupportedOperation m)

/-! Helper lemmas about the pipeline. -/

/-- Rewriting an operation's `outputFormat` to its own value is the
identity. -/
lemma outputFormat_set_self (op : DataOperation) :
    { op with outputFormat := op.outputFormat } = op := rfl

/-- The outputFormat-only frame relation composes. -/
lemma outputFormat_frame_trans {a b c : DataOperation}
    (h1 : { b with outputFormat := a.outputFormat } = a)
    (h2 : { c with outputFormat := b.outputFormat } = b) :
    { c with outputFormat := a.outputFormat } = a := by
  cases a
  cases b
  cases c
  injection h1 with e1 e2 e3 e4
  injection h2 with f1 f2 f3 f4
  subst f1
  subst f3
  subst f4
  subst e1
  subst e3
  subst e4
  rfl

/-- Unfolding step: a first stage that throws stops the chain. -/
lemma runFilters_first_error (f : FilterFn) (rest : List FilterFn)
    (operation : DataOperation) (context : RequestContext) (configs : List ServiceConfig)
    (operation2 : DataOperation) (e : StageError)
    (hf : f operation context configs = (operation2, .error e)) :
    runFilters (f :: rest) operation context configs = (operation2, .error e) := by
  unfold runFilters
  rw [hf]

/-- Unfolding step: a first stage that survives hands its output to the rest
of the chain. -/
lemma runFilters_first_ok (f : FilterFn) (rest : List FilterFn)
    (operation : DataOperation) (context : RequestContext) (configs : List ServiceConfig)
    (operation2 : DataOperation) (ms : List ServiceConfig)
    (hf : f operation context configs = (operation2, .ok ms)) :
    runFilters (f :: rest) operation context configs = runFilters rest operation2 context ms := by
  conv_lhs => rw [runFilters.eq_def]
  dsimp only
  rw [hf]

lemma filterCollectionMatches_spec : StageSpec filterCollectionMatches := by
  intro op ctx cfgs op2 r h
  simp only [filterCollectionMatches] at h
  split at h
  · injection h with h1 h2
    subst h1
    subst h2
    refine ⟨outputFormat_set_self op, ?_, ?_⟩
    · intro ms hms
      exact Except.noConfusion hms
    · intro e he
      injection he with he'
      exact ⟨_, he'.symm⟩
  · rename_i hlen
    injection h with h1 h2
    subst h1
    subst h2
    refine ⟨outputFormat_set_self op, ?_, ?_⟩
    · intro ms hms
      injection hms with hms'
      subst hms'
      refine ⟨List.filter_sublist _, ?_⟩
      intro hnil
      rw [hnil] at hlen
      simp at hlen
    · intro e he
      exact Except.noConfusion he

lemma filterVariableSubsettingMatches_spec : StageSpec filterVariableSubsettingMatches := by
  intro op ctx cfgs op2 r h
  simp only [filterVariableSubsettingMatches] at h
  split at h <;> split at h
  case isTrue.isTrue =>
    injection h with h1 h2
    subst h1
    subst h2
    refine ⟨outputFormat_set_self op, ?_, ?_⟩
    · intro ms hms
      exact Except.noConfusion hms
    · intro e he
      injection he with he'
      exact ⟨_, he'.symm⟩
  case isTrue.isFalse hlen =>
    injection h with h1 h2
    subst h1
    subst h2
    refine ⟨outputFormat_set_self op, ?_, ?_⟩
    · intro ms hms
      injection hms with hms'
      subst hms'
      refine ⟨List.filter_sublist _, ?_⟩
      intro hnil
      rw [hnil] at hlen
      simp at hlen
    · intro e he
      exact Except.noConfusion he
  case isFalse.isTrue =>
    injection h with h1 h2
    subst h1
    subst h2
    refine ⟨outputFormat_set_self op, ?_, ?_⟩
    · intro ms hms
      exact Except.noConfusion hms
    · intro e he
      injection he with he'
      exact ⟨_, he'.symm⟩
  case isFalse.isFalse hlen =>
    injection h with h1 h2
    subst h1
    subst h2
    refine ⟨outputFormat_set_self op, ?_, ?_⟩
    · intro ms hms
      injection hms with hms'
      subst hms'
      refine ⟨List.Sublist.refl _, ?_⟩
      intro hnil
      rw [hnil] at hlen
      simp at hlen
    · intro e he
      exact Except.noConfusion he

lemma filterOutputFormatMatches_spec : StageSpec filterOutputFormatMatches := by
  intro op ctx cfgs op2 r h
  simp only [filterOutputFormatMatches] at h
  split at h
  · split at h
    · split at h
      · injection h with h1 h2
        subst h1
        subst h2
        refine ⟨rfl, ?_, ?_⟩
        · intro ms hms
          exact Except.noConfusion hms
        · intro e he
          injection he with he'
          exact ⟨_, he'.symm⟩
      · rename_i hlen
        injection h with h1 h2
        subst h1
        subst h2
        refine ⟨rfl, ?_, ?_⟩
        · intro ms hms
          injection hms with hms'
          subst hms'
          refine ⟨List.filter_sublist _, ?_⟩
          intro hnil
          rw [hnil] at hlen
          simp at hlen
        · intro e he
          exact Except.noConfusion he
    · injection h with h1 h2
      subst h1
      subst h2
      refine ⟨outputFormat_set_self op, ?_, ?_⟩
      · intro ms hms
        exact Except.noConfusion hms
      · intro e he
        injection he with he'
        exact ⟨_, he'.symm⟩
  · split at h
    · injection h with h1 h2
      subst h1
      subst h2
      refine ⟨outputFormat_set_self op, ?_, ?_⟩
      · intro ms hms
        exact Except.noConfusion hms
      · intro e he
        injection he with he'
        exact ⟨_, he'.symm⟩
    · rename_i hlen
      injection h with h1 h2
      subst h1
      subst h2
      refine ⟨outputFormat_set_self op, ?_, ?_⟩
      · intro ms hms
        injection hms with hms'
        subst hms'
        refine ⟨List.Sublist.refl _, ?_⟩
        intro hnil
        rw [hnil] at hlen
        simp at hlen
      · intro e he
        exact Except.noConfusion he

lemma filterSpatialSubsettingMatches_spec : StageSpec filterSpatialSubsettingMatches := by
  intro op ctx cfgs op2 r h
  simp only [filterSpatialSubsettingMatches] at h
  split at h <;> split at h
  case isTrue.isTrue =>
    injection h with h1 h2
    subst h1
    subst h2
    refine ⟨outputFormat_set_self op, ?_, ?_⟩
    · intro ms hms
      exact Except.noConfusion hms
    · intro e he
      injection he with he'
      exact ⟨_, he'.symm⟩
  case isTrue.isFalse hlen =>
    injection h with h1 h2
    subst h1
    subst h2
    refine ⟨outputFormat_set_self op, ?_, ?_⟩
    · intro ms hms
      injection hms with hms'
      subst hms'
      refine ⟨List.filter_sublist _, ?_⟩
      intro hnil
      rw [hnil] at hlen
      simp at hlen
    · intro e he
      exact Except.noConfusion he
  case isFalse.isTrue =>
    injection h with h1 h2
    subst h1
    subst h2
    refine ⟨outputFormat_set_self op, ?_, ?_⟩
    · intro ms hms
      exact Except.noConfusion hms
    · intro e he
      injection he with he'
      exact ⟨_, he'.symm⟩
  case isFalse.isFalse hlen =>
    injection h with h1 h2
    subst h1
    subst h2
    refine ⟨outputFormat_set_self op, ?_, ?_⟩
    · intro ms hms
      injection hms with hms'
      subst hms'
      refine ⟨List.Sublist.refl _, ?_⟩
      intro hnil
      rw [hnil] at hlen
      simp at hlen
    · intro e he
      exact Except.noConfusion he

/-- Every stage in the configured pipeline satisfies the stage contract. -/
lemma operationFilterFns_spec : ∀ f ∈ operationFilterFns, StageSpec f := by
  intro f hf
  simp only [operationFilterFns, List.mem_cons, List.not_mem_nil, or_false] at hf
  rcases hf with rfl | rfl | rfl | rfl
  · exact filterCollectionMatches_spec
  · exact filterVariableSubsettingMatches_spec
  · exact filterOutputFormatMatches_spec
  · exact filterSpatialSubsettingMatches_spec

/-- Chaining stages that satisfy the stage contract yields the same frame,
sublist and error guarantees (the surviving list is nonempty as soon as at
least one stage ran). -/
lemma runFilters_spec (filterFns : List FilterFn)
    (hf : ∀ f ∈ filterFns, StageSpec f) :
    ∀ operation context configs operation2 r,
      runFilters filterFns operation context configs = (operation2, r) →
      ({ operation2 with outputFormat := operation.outputFormat } = operation) ∧
      (∀ ms, r = .ok ms → ms.Sublist configs ∧ (filterFns ≠ [] → ms ≠ [])) ∧
      (∀ e, r = .error e → ∃ m, e = .unsupportedOperation m) := by
  induction filterFns with
  | nil =>
    intro op ctx cfgs op2 r h
    unfold runFilters at h
    injection h with h1 h2
    subst h1
    subst h2
    refine ⟨outputFormat_set_self op, ?_, ?_⟩
    · intro ms hms
      injection hms with hms'
      subst hms'
      exact ⟨List.Sublist.refl _, fun hne => absurd rfl hne⟩
    · intro e he
      exact Except.noConfusion he
  | cons f rest ih =>
    intro op ctx cfgs op2 r h
    have hfspec : StageSpec f := hf f (List.mem_cons_self f rest)
    have hrest : ∀ g ∈ rest, StageSpec g := fun g hg => hf g (List.mem_cons_of_mem f hg)
    unfold runFilters at h
    rcases h1 : f op ctx cfgs with ⟨op1, r1⟩
    rw [h1] at h
    obtain ⟨hframe1, hok1, herr1⟩ := hfspec op ctx cfgs op1 r1 h1
    rcases r1 with e1 | ms1
    · injection h with ha hb
      subst ha
      subst hb
      refine ⟨hframe1, ?_, herr1⟩
      intro ms hms
      exact Except.noConfusion hms
    · obtain ⟨hsub1, hne1⟩ := hok1 ms1 rfl
      obtain ⟨hframe2, hok2, herr2⟩ := ih hrest op1 ctx ms1 op2 r h
      refine ⟨outputFormat_frame_trans hframe1 hframe2, fun ms hms => ?_, herr2⟩
      obtain ⟨hsub2, hne2⟩ := hok2 ms hms
      refine ⟨hsub2.trans hsub1, fun _ => ?_⟩
      cases rest with
      | nil =>
        unfold runFilters at h
        injection h with ha hb
        subst ha
        rw [hms] at hb
        injection hb with hc
        subst hc
        exact hne1
      | cons g grest => exact hne2 (by simp)

/-- The configured pipeline's combined guarantees, specialised from
`runFilters_spec`. -/
lemma runFilters_pipeline_spec (operation : DataOperation) (context : RequestContext)
    (configs : List ServiceConfig) (operation2 : DataOperation)
    (r : Except StageError (List ServiceConfig))
    (h : runFilters operationFilterFns operation context configs = (operation2, r)) :
    ({ operation2 with outputFormat := operation.outputFormat } = operation) ∧
    (∀ ms, r = .ok ms → ms.Sublist configs ∧ ms ≠ []) ∧
    (∀ e, r = .error e → ∃ m, e = .unsupportedOperation m) := by
  obtain ⟨h1, h2, h3⟩ :=
    runFilters_spec operationFilterFns operationFilterFns_spec
      operation context configs operation2 r h
  refine ⟨h1, fun ms hms => ?_, h3⟩
  obtain ⟨hsub, hne⟩ := h2 ms hms
  exact ⟨hsub, hne (by simp [operationFilterFns])⟩

/-- When selection falls back to the no-op singleton, the module state ends
holding exactly the explanation for the (mutated) operation. -/
lemma chooseServiceConfig_noOpRef_state (operation : DataOperation)
    (context : RequestContext) (configs : List ServiceConfig) (st : SelectionState)
    (operation2 : DataOperation) (st2 : SelectionState)
    (h : chooseServiceConfig operation context configs st = .ok (.noOpRef, operation2, st2)) :
    st2 = { st with noOpMessage := some (unsupportedCombinationMessage operation2 context) } := by
  unfold chooseServiceConfig chooseServiceConfigWith at h
  rcases hr : runFilters operationFilterFns operation context configs with ⟨op2, r⟩
  rw [hr] at h
  rcases r with e | ms
  · rcases e with m | m
    · injection h with h1
      injection h1 with hc hrest
      injection hrest with hop hst
      subst hop
      subst hst
      rfl
    · cases h
  · rcases ms with _ | ⟨c, rest⟩ <;> · injection h with h1; injection h1 with hc; cases hc

/-- The rendering of a nonempty phrase list literally starts with its first
phrase. -/
lemma listToText_cons (h : String) (t : List String) :
    ∃ r, listToText (h :: t) = h ++ r := by
  cases t with
  | nil => exact ⟨"", (String.append_empty h).symm⟩
  | cons b rest => exact ⟨_, rfl⟩

/-- A string of the shape `A ++ (listToText (h :: t) ++ T)` contains `h` as
a substring, witnessed by an explicit split. -/
lemma listToText_cons_append (h : String) (t : List String) (A T : String) :
    ∃ pre post, A ++ (listToText (h :: t) ++ T) = pre ++ (h ++ post) := by
  obtain ⟨r, hr⟩ := listToText_cons h t
  refine ⟨A, r ++ T, ?_⟩
  rw [hr, String.append_assoc]

/-- Whenever the operation names variables, the fallback explanation
mentions variable subsetting: the message splits around the literal phrase
"variable subsetting". -/
lemma unsupportedCombinationMessage_mentions_variable (op : DataOperation)
    (ctx : RequestContext) (hreq : requiresVariableSubsetting op = true) :
    ∃ pre post,
      unsupportedCombinationMessage op ctx = pre ++ ("variable subsetting" ++ post) := by
  unfold unsupportedCombinationMessage
  simp only [hreq, eq_self_iff_true, if_true, List.singleton_append, List.length_cons,
    Nat.succ_pos, ite_true]
  exact listToText_cons_append _ _ _ _

/-! Theorems settling the claims. -/

/-- C4: for every operation and context, `chooseServiceConfig` applied to an
empty candidate set does not raise: it returns the no-op singleton, leaving
the operation unchanged and recording the explanatory message in the
singleton's state. -/
theorem c4_empty_candidates_fall_back (operation : DataOperation)
    (context : RequestContext) (st : SelectionState) :
    chooseServiceConfig operation context [] st =
      .ok (.noOpRef, operation,
        { st with noOpMessage := some (unsupportedCombinationMessage operation context) }) := by
  rfl

/-- C1: whenever some elimination stage signals an unsupported operation,
`chooseServiceConfig` does not raise — it returns the no-op singleton with
its message set to the explanation built by `unsupportedCombinationMessage`
from the operation and context; and any stage error that is not an
`UnsupportedOperation` propagates to the caller unchanged. -/
theorem c1_unsupported_recovered_other_errors_propagate (operation : DataOperation)
    (context : RequestContext) (configs : List ServiceConfig) (st : SelectionState) :
    (∀ operation2 m,
      runFilters operationFilterFns operation context configs =
        (operation2, .error (.unsupportedOperation m)) →
      chooseServiceConfig operation context configs st =
        .ok (.noOpRef, operation2,
          { st with noOpMessage := some (unsupportedCombinationMessage operation2 context) })) ∧
    (∀ filterFns operation2 m,
      runFilters filterFns operation context configs = (operation2, .error (.otherError m)) →
      chooseServiceConfigWith filterFns operation context configs st =
        .error (.otherError m)) := by
  constructor
  · intro operation2 m h
    unfold chooseServiceConfig chooseServiceConfigWith
    rw [h]
  · intro filterFns operation2 m h
    unfold chooseServiceConfigWith
    rw [h]

/-- Witness for C1: a concrete rejected call recovers into the no-op
fallback, and a concrete stage throwing a non-`UnsupportedOperation` error
propagates it unchanged. -/
theorem c1_witness :
    chooseServiceConfig { sources := [{ collection := "C1" }] } {} [] ⟨none⟩ =
      .ok (.noOpRef, { sources := [{ collection := "C1" }] },
        ⟨some (unsupportedCombinationMessage { sources := [{ collection := "C1" }] } {})⟩) ∧
    chooseServiceConfigWith [fun operation _ _ => (operation, .error (.otherError "boom"))]
        { sources := [{ collection := "C1" }] } {} [] ⟨none⟩ =
      .error (.otherError "boom") := by
  constructor
  · exact (c1_unsupported_recovered_other_errors_propagate
      { sources := [{ collection := "C1" }] } {} [] ⟨none⟩).1
      { sources := [{ collection := "C1" }] }
      "no services are configured for the collection" rfl
  · exact (c1_unsupported_recovered_other_errors_propagate
      { sources := [{ collection := "C1" }] } {} [] ⟨none⟩).2
      [fun operation _ _ => (operation, .error (.otherError "boom"))]
      { sources := [{ collection := "C1" }] } "boom" rfl

/-- C6: when no stage signals unsupported, the surviving candidates are an
order-preserving sublist of the input list, and `chooseServiceConfig`
returns their head — the first candidate in store-declaration order that
survives all four stages. -/
theorem c6_first_surviving_candidate_chosen (operation : DataOperation)
    (context : RequestContext) (configs : List ServiceConfig) (st : SelectionState)
    (operation2 : DataOperation) (ms : List ServiceConfig)
    (h : runFilters operationFilterFns operation context configs = (operation2, .ok ms)) :
    ms.Sublist configs ∧
      ∃ c rest, ms = c :: rest ∧
        chooseServiceConfig operation context configs st = .ok (.config c, operation2, st) := by
  obtain ⟨-, hok, -⟩ := runFilters_pipeline_spec operation context configs operation2 (.ok ms) h
  obtain ⟨hsub, hne⟩ := hok ms rfl
  rcases ms with _ | ⟨c, rest⟩
  · exact absurd rfl hne
  · refine ⟨hsub, c, rest, rfl, ?_⟩
    unfold chooseServiceConfig chooseServiceConfigWith
    rw [h]

/-- Witness for C6: with two concrete descriptors that both satisfy every
stage, the one declared first is chosen. -/
theorem c6_witness :
    ([svcA, svcB] : List ServiceConfig).Sublist [svcA, svcB] ∧
      ∃ c rest, ([svcA, svcB] : List ServiceConfig) = c :: rest ∧
        chooseServiceConfig { sources := [{ collection := "C1" }] } {} [svcA, svcB] ⟨none⟩ =
          .ok (.config c, { sources := [{ collection := "C1" }] }, ⟨none⟩) :=
  c6_first_surviving_candidate_chosen { sources := [{ collection := "C1" }] } {}
    [svcA, svcB] ⟨none⟩ { sources := [{ collection := "C1" }] } [svcA, svcB] rfl

/-- C7: `buildService` throws exactly when no adapter class is registered
for the descriptor's mechanism tag name; otherwise it returns the base
adapter, wrapped by the Asynchronizer iff the descriptor is flagged
`synchronous_only` or `single_granule_requests`. -/
theorem c7_buildService_adapter_selection (serviceConfig : ServiceConfig)
    (operation : DataOperation) :
    ((∃ e, buildService serviceConfig operation = .error e) ↔
      serviceTypesToServiceClasses serviceConfig.type.name = none) ∧
    (serviceTypesToServiceClasses serviceConfig.type.name = none →
      buildService serviceConfig operation = .error (.notFound
        "Could not find an appropriate service class for type \"[object Object]\"")) ∧
    (∀ cls, serviceTypesToServiceClasses serviceConfig.type.name = some cls →
      buildService serviceConfig operation =
        (if serviceConfig.type.synchronous_only || serviceConfig.type.single_granule_requests
          then .ok (.asynchronizer cls serviceConfig operation)
          else .ok (.base cls serviceConfig operation))) := by
  rcases hlk : serviceTypesToServiceClasses serviceConfig.type.name with _ | cls
  · have hb : buildService serviceConfig operation = .error (.notFound
        "Could not find an appropriate service class for type \"[object Object]\"") := by
      unfold buildService
      rw [hlk]
    refine ⟨⟨fun _ => rfl, fun _ => ⟨_, hb⟩⟩, fun _ => hb, ?_⟩
    intro cls hcls
    exact Option.noConfusion hcls
  · have hb : buildService serviceConfig operation =
        (if serviceConfig.type.synchronous_only || serviceConfig.type.single_granule_requests
          then .ok (.asynchronizer cls serviceConfig operation)
          else .ok (.base cls serviceConfig operation)) := by
      unfold buildService
      rw [hlk]
    refine ⟨⟨?_, fun hno => Option.noConfusion hno⟩, fun hno => Option.noConfusion hno, ?_⟩
    · rintro ⟨e, he⟩
      rw [hb] at he
      split at he <;> exact Except.noConfusion he
    · intro cls' hcls
      injection hcls with hcc
      subst hcc
      exact hb

/-- Witness for C7: an unregistered tag throws, a registered synchronous-only
descriptor is Asynchronizer-wrapped, and an unflagged registered descriptor
yields the base adapter. -/
theorem c7_witness :
    buildService { name := "x", type := { name := "bogus" } } {} =
      .error (.notFound
        "Could not find an appropriate service class for type \"[object Object]\"") ∧
    buildService { name := "y", type := { name := "http", synchronous_only := true } } {} =
      .ok (.asynchronizer .http
        { name := "y", type := { name := "http", synchronous_only := true } } {}) ∧
    buildService { name := "z", type := { name := "queue" } } {} =
      .ok (.base .queue { name := "z", type := { name := "queue" } } {}) := by
  refine ⟨?_, ?_, ?_⟩
  · exact (c7_buildService_adapter_selection { name := "x", type := { name := "bogus" } } {}).2.1
      rfl
  · exact (c7_buildService_adapter_selection
      { name := "y", type := { name := "http", synchronous_only := true } } {}).2.2 .http rfl
  · exact (c7_buildService_adapter_selection { name := "z", type := { name := "queue" } } {}).2.2
      .queue rfl

/-- C8 (amended): `chooseServiceConfig` always succeeds, changes nothing in
the operation except possibly `outputFormat`, returns a real configuration
only from the input candidate list (candidates themselves are unmodified
values), and its only other effect is overwriting the no-op singleton's
`message` field — which happens exactly on the fallback path. -/
theorem c8_selection_frame_amended (operation : DataOperation) (context : RequestContext)
    (configs : List ServiceConfig) (st : SelectionState) :
    ∃ chosen operation2 st2,
      chooseServiceConfig operation context configs st = .ok (chosen, operation2, st2) ∧
      { operation2 with outputFormat := operation.outputFormat } = operation ∧
      (∀ c, chosen = .config c → c ∈ configs) ∧
      (chosen = .noOpRef →
        st2 = { st with noOpMessage := some (unsupportedCombinationMessage operation2 context) }) ∧
      (chosen ≠ .noOpRef → st2 = st) := by
  rcases hr : runFilters operationFilterFns operation context configs with ⟨op2, r⟩
  obtain ⟨hframe, hok, herr⟩ := runFilters_pipeline_spec operation context configs op2 r hr
  rcases r with e | ms
  · obtain ⟨m, rfl⟩ := herr e rfl
    refine ⟨.noOpRef, op2,
      { st with noOpMessage := some (unsupportedCombinationMessage op2 context) },
      ?_, hframe, ?_, fun _ => rfl, fun hne => absurd rfl hne⟩
    · unfold chooseServiceConfig chooseServiceConfigWith
      rw [hr]
    · intro c hc
      exact ChosenConfig.noConfusion hc
  · obtain ⟨hsub, hne⟩ := hok ms rfl
    rcases ms with _ | ⟨c, rest⟩
    · exact absurd rfl hne
    · refine ⟨.config c, op2, st, ?_, hframe, ?_, ?_, fun _ => rfl⟩
      · unfold chooseServiceConfig chooseServiceConfigWith
        rw [hr]
      · intro c' hc'
        injection hc' with hcc
        subst hcc
        exact hsub.subset (List.mem_cons_self c rest)
      · intro hno
        exact ChosenConfig.noConfusion hno

/-- Witness for C8 (amended) at a concrete selection that succeeds. -/
theorem c8_witness :
    ∃ chosen operation2 st2,
      chooseServiceConfig { sources := [{ collection := "C1" }] } {} [svcA] ⟨none⟩ =
        .ok (chosen, operation2, st2) ∧
      { operation2 with
        outputFormat := DataOperation.outputFormat { sources := [{ collection := "C1" }] } } =
        { sources := [{ collection := "C1" }] } ∧
      (∀ c, chosen = .config c → c ∈ [svcA]) ∧
      (chosen = .noOpRef →
        st2 = { SelectionState.mk none with
          noOpMessage := some (unsupportedCombinationMessage operation2 {}) }) ∧
      (chosen ≠ .noOpRef → st2 = ⟨none⟩) :=
  c8_selection_frame_amended { sources := [{ collection := "C1" }] } {} [svcA] ⟨none⟩

/-- C8 counterexample: a fallback call overwrites the no-op singleton's
message — a side effect beyond the operation's `outputFormat`, so selection
is not side-effect-free except for that one operation mutation. -/
theorem c8_counterexample :
    chooseServiceConfig { sources := [{ collection := "C1" }] } { requestedMimeTypes := none }
        [] ⟨none⟩ =
      .ok (.noOpRef, { sources := [{ collection := "C1" }] },
        ⟨some "no operations can be performed on C1"⟩) ∧
    (⟨some "no operations can be performed on C1"⟩ : SelectionState) ≠ ⟨none⟩ := by
  constructor
  · rfl
  · intro hcontra
    injection hcontra with h1
    exact Option.noConfusion h1

/-- C10: the no-op fallback is one mutable singleton: two consecutive
falling-back calls return the same reference, and dereferencing the first
call's result after the second call shows the second call's explanation
message. -/
theorem c10_noop_singleton_overwritten (op1 : DataOperation) (ctx1 : RequestContext)
    (cfgs1 : List ServiceConfig) (op2 : DataOperation) (ctx2 : RequestContext)
    (cfgs2 : List ServiceConfig) (st0 st1 st2 : SelectionState)
    (o1 o2 : DataOperation) (r1 r2 : ChosenConfig)
    (hA : chooseServiceConfig op1 ctx1 cfgs1 st0 = .ok (r1, o1, st1))
    (hB : chooseServiceConfig op2 ctx2 cfgs2 st1 = .ok (r2, o2, st2))
    (h1 : r1 = .noOpRef) (h2 : r2 = .noOpRef) :
    r1 = r2 ∧
    derefChosen r1 st2 = derefChosen r2 st2 ∧
    derefChosen r1 st2 =
      some { noOpService with message := some (unsupportedCombinationMessage o2 ctx2) } := by
  subst h1
  subst h2
  have hst := chooseServiceConfig_noOpRef_state op2 ctx2 cfgs2 st1 o2 st2 hB
  refine ⟨rfl, rfl, ?_⟩
  rw [hst]
  rfl

/-- Witness for C10: two concrete consecutive fallback calls. -/
theorem c10_witness :
    ChosenConfig.noOpRef = ChosenConfig.noOpRef ∧
    derefChosen .noOpRef ⟨some "no operations can be performed on B"⟩ =
      derefChosen .noOpRef ⟨some "no operations can be performed on B"⟩ ∧
    derefChosen .noOpRef ⟨some "no operations can be performed on B"⟩ =
      some { noOpService with
        message := some (unsupportedCombinationMessage
          { sources := [{ collection := "B" }] } {}) } :=
  c10_noop_singleton_overwritten
    { sources := [{ collection := "A" }] } {} [] { sources := [{ collection := "B" }] } {} []
    ⟨none⟩ ⟨some "no operations can be performed on A"⟩
    ⟨some "no operations can be performed on B"⟩
    { sources := [{ collection := "A" }] } { sources := [{ collection := "B" }] }
    .noOpRef .noOpRef rfl rfl rfl rfl

/-- C2 counterexample: a child that exits with the non-zero code 1 *after*
having delivered its notification (callback URL no longer bound) triggers no
synthetic failure notification, contradicting the claim that a non-zero exit
always produces exactly one. -/
theorem c2_counterexample :
    (1 : Int) ≠ 0 ∧
    childExitNotifications "http://localhost:3000/abc" 1 false = [] := by
  constructor
  · decide
  · rfl

/-- C2 (amended): the local-process exit handler posts exactly one synthetic
failure notification — with message "Service request failed with an unknown
error." to the operation's original completion address — iff the callback
URL is still bound when the child exits, regardless of the exit code; if the
child already delivered its notification (URL unbound), none is sent. -/
theorem c2_exit_handler_amended (cb : String) (code : Int) (bound : Bool) :
    ((childExitNotifications cb code bound).length = 1 ↔ bound = true) ∧
    (bound = true →
      childExitNotifications cb code bound =
        [{ target := cb ++ "/response",
           error := "Service request failed with an unknown error." }]) ∧
    (bound = false → childExitNotifications cb code bound = []) := by
  cases bound <;> simp [childExitNotifications, childProcessAborted]

/-- Witness for C2 (amended): a bound-at-exit child yields one failure
notification; an unbound-at-exit child yields none. -/
theorem c2_witness :
    (childExitNotifications "http://localhost/cb" 7 true).length = 1 ∧
    childExitNotifications "http://localhost/cb" 0 false = [] := by
  constructor
  · exact (c2_exit_handler_amended "http://localhost/cb" 7 true).1.mpr rfl
  · exact (c2_exit_handler_amended "http://localhost/cb" 0 false).2.2 rfl

/-- C9: when the operation requests neither variable nor spatial subsetting,
has no output format set, and every requested mime type is the wildcard `*`
or `*/*`, the fallback explanation counts no reformatting request: the
message is exactly the bare "no operations can be performed on" phrase over
the collection list. -/
theorem c9_wildcards_not_reformatting (operation : DataOperation)
    (context : RequestContext) (mts : List String)
    (h1 : requiresVariableSubsetting operation = false)
    (h2 : requiresSpatialSubsetting operation = false)
    (h3 : operation.outputFormat = none)
    (h4 : context.requestedMimeTypes = some mts)
    (h5 : ∀ m ∈ mts, m = "*" ∨ m = "*/*") :
    unsupportedCombinationMessage operation context =
      "no operations can be performed on " ++
        listToText (operation.sources.map fun s => s.collection) := by
  have hfil : (mts.filter fun f => !(f == "*") && !(f == "*/*")) = [] := by
    rw [List.filter_eq_nil_iff]
    intro a ha
    rcases h5 a ha with rfl | rfl <;> decide
  simp [unsupportedCombinationMessage, h1, h2, h3, h4, jsTruthyStr, hfil]

/-- Witness for C9: a concrete operation whose only requested mime type is
the full wildcard gets the bare no-operations message. -/
theorem c9_witness :
    unsupportedCombinationMessage { sources := [{ collection := "C1" }] }
        { requestedMimeTypes := some ["*/*"] } =
      "no operations can be performed on " ++
        listToText (List.map (fun s => s.collection)
          (DataOperation.sources { sources := [{ collection := "C1" }] })) :=
  c9_wildcards_not_reformatting { sources := [{ collection := "C1" }] }
    { requestedMimeTypes := some ["*/*"] } ["*/*"] rfl rfl rfl rfl
    (by intro m hm; simp at hm; right; exact hm)

/-- C5 counterexample: on an operation that names no variables, the
variable-subsetting stage does not pass an empty candidate set through — it
signals unsupported instead, so "otherwise it passes all candidates through"
fails at the empty set. -/
theorem c5_counterexample :
    requiresVariableSubsetting { sources := [{ collection := "C1" }] } = false ∧
    filterVariableSubsettingMatches { sources := [{ collection := "C1" }] } {} [] =
      ({ sources := [{ collection := "C1" }] },
        .error (.unsupportedOperation
          "none of the services configured for the collection support variable subsetting")) := by
  constructor
  · rfl
  · rfl

/-- C5 (amended): when the operation names variables and, after collection
matching, no candidate is flagged as supporting variable subsetting,
`chooseServiceConfig` returns the no-op singleton with an explanation
containing "variable subsetting"; and on a *nonempty* candidate set the
variable-subsetting stage passes all candidates through when the operation
names no variables (on an empty set it signals unsupported instead). -/
theorem c5_variable_subsetting_fallback_amended :
    (∀ (operation : DataOperation) (context : RequestContext)
        (configs : List ServiceConfig) (st : SelectionState),
      requiresVariableSubsetting operation = true →
      (∀ c ∈ configs, isCollectionMatch operation c = true →
        c.capabilities.subsetting.variableSupport = false) →
      ∃ msg,
        chooseServiceConfig operation context configs st =
          .ok (.noOpRef, operation, { st with noOpMessage := some msg }) ∧
        msg = unsupportedCombinationMessage operation context ∧
        ∃ pre post, msg = pre ++ ("variable subsetting" ++ post)) ∧
    (∀ (operation : DataOperation) (context : RequestContext)
        (configs : List ServiceConfig),
      requiresVariableSubsetting operation = false → configs ≠ [] →
      filterVariableSubsettingMatches operation context configs = (operation, .ok configs)) := by
  constructor
  · intro op ctx cfgs st hreq hnone
    have herr : ∃ m, runFilters operationFilterFns op ctx cfgs =
        (op, .error (.unsupportedOperation m)) := by
      by_cases hM : (cfgs.filter fun config => isCollectionMatch op config) = []
      · refine ⟨"no services are configured for the collection", ?_⟩
        exact runFilters_first_error filterCollectionMatches
          [filterVariableSubsettingMatches, filterOutputFormatMatches,
            filterSpatialSubsettingMatches]
          op ctx cfgs op _ (by simp only [filterCollectionMatches, hM]; rfl)
      · have hstage1 : filterCollectionMatches op ctx cfgs =
            (op, .ok (cfgs.filter fun config => isCollectionMatch op config)) := by
          simp only [filterCollectionMatches]
          split
          · rename_i hcond
            exact absurd (by simpa [List.length_eq_zero] using hcond) hM
          · rfl
        have hsup : supportsVariableSubsetting
            (cfgs.filter fun config => isCollectionMatch op config) = [] := by
          unfold supportsVariableSubsetting
          rw [List.filter_eq_nil_iff]
          intro c hc
          obtain ⟨hmem, hmatch⟩ := List.mem_filter.mp hc
          simp [hnone c hmem (by simpa using hmatch)]
        have hstage2 : filterVariableSubsettingMatches op ctx
            (cfgs.filter fun config => isCollectionMatch op config) =
            (op, .error (.unsupportedOperation
              "none of the services configured for the collection support variable subsetting")) := by
          simp only [filterVariableSubsettingMatches, hreq, hsup]
          rfl
        refine ⟨"none of the services configured for the collection support variable subsetting",
          ?_⟩
        calc runFilters operationFilterFns op ctx cfgs
            = runFilters [filterVariableSubsettingMatches, filterOutputFormatMatches,
                filterSpatialSubsettingMatches] op ctx
                (cfgs.filter fun config => isCollectionMatch op config) :=
              runFilters_first_ok filterCollectionMatches
                [filterVariableSubsettingMatches, filterOutputFormatMatches,
                  filterSpatialSubsettingMatches] op ctx cfgs op _ hstage1
          _ = (op, .error (.unsupportedOperation
                "none of the services configured for the collection support variable subsetting")) :=
              runFilters_first_error filterVariableSubsettingMatches
                [filterOutputFormatMatches, filterSpatialSubsettingMatches] op ctx
                (cfgs.filter fun config => isCollectionMatch op config) op _ hstage2
    obtain ⟨m, hrun⟩ := herr
    refine ⟨unsupportedCombinationMessage op ctx, ?_, rfl, ?_⟩
    · unfold chooseServiceConfig chooseServiceConfigWith
      rw [hrun]
    · exact unsupportedCombinationMessage_mentions_variable op ctx hreq
  · intro op ctx cfgs hreq hne
    simp only [filterVariableSubsettingMatches, hreq]
    split
    · rename_i hb
      exact absurd hb (by simp)
    · split
      · rename_i hcond
        exact absurd (by simpa [List.length_eq_zero] using hcond) hne
      · rfl

/-- Witness for C5 (amended): a concrete variable-requesting operation over
one candidate without variable-subsetting support falls back with a message
mentioning variable subsetting, and a concrete variable-free operation
passes a nonempty candidate set through the stage unchanged. -/
theorem c5_witness :
    (∃ msg,
      chooseServiceConfig { sources := [{ collection := "C1", variableList := ["v"] }] } {}
          [svcA] ⟨none⟩ =
        .ok (.noOpRef, { sources := [{ collection := "C1", variableList := ["v"] }] },
          ⟨some msg⟩) ∧
      msg = unsupportedCombinationMessage
        { sources := [{ collection := "C1", variableList := ["v"] }] } {} ∧
      ∃ pre post, msg = pre ++ ("variable subsetting" ++ post)) ∧
    filterVariableSubsettingMatches { sources := [{ collection := "C1" }] } {} [svcA] =
      ({ sources := [{ collection := "C1" }] }, .ok [svcA]) := by
  constructor
  · exact c5_variable_subsetting_fallback_amended.1
      { sources := [{ collection := "C1", variableList := ["v"] }] } {} [svcA] ⟨none⟩
      rfl (by decide)
  · exact c5_variable_subsetting_fallback_amended.2
      { sources := [{ collection := "C1" }] } {} [svcA] rfl (by simp)

/-- C3: for an operation with no preset output format, context mime types
`["image/png", "*/*"]` in that order, and two candidates supporting
`["image/tiff"]` and `["image/png", "image/tiff"]` respectively, the
output-format stage always resolves `operation.outputFormat` to `image/png`
and exactly the second candidate survives. -/
theorem c3_format_resolution_deterministic (operation : DataOperation)
    (context : RequestContext) (cfg1 cfg2 : ServiceConfig)
    (h0 : operation.outputFormat = none)
    (h1 : cfg1.capabilities.output_formats = ["image/tiff"])
    (h2 : cfg2.capabilities.output_formats = ["image/png", "image/tiff"])
    (hc : context.requestedMimeTypes = some ["image/png", "*/*"]) :
    filterOutputFormatMatches operation context [cfg1, cfg2] =
      ({ operation with outputFormat := some "image/png" }, .ok [cfg2]) := by
  have f1 : (List.find? (fun f => isMimeTypeAccepted f "image/png") ["image/tiff"]) = none := by
    decide
  have f2 : (List.find? (fun f => isMimeTypeAccepted f "image/png")
      ["image/png", "image/tiff"]) = some "image/png" := by decide
  have t2 : jsTruthyStr (some "image/png") = true := by decide
  have e1 : selectServicesForFormat "image/png" [cfg1, cfg2] = [cfg2] := by
    simp [selectServicesForFormat, h1, h2, f1, f2, jsTruthyStr]
  have esel : selectFormat operation context [cfg1, cfg2] = some "image/png" := by
    simp [selectFormat, h0, hc, hasRequestedMimeTypes, jsTruthyStr, selectFormatLoop, e1, f2, h2]
  simp [filterOutputFormatMatches, h0, hc, hasRequestedMimeTypes, esel, e1, jsTruthyStr, t2]

/-- Witness for C3 at fully concrete descriptors. -/
theorem c3_witness :
    filterOutputFormatMatches { sources := [{ collection := "C1" }] }
        { requestedMimeTypes := some ["image/png", "*/*"] }
        [{ svcA with capabilities := { output_formats := ["image/tiff"] } },
          { svcB with capabilities := { output_formats := ["image/png", "image/tiff"] } }] =
      ({ DataOperation.mk [{ collection := "C1" }] none none "" with
          outputFormat := some "image/png" },
        .ok [{ svcB with capabilities := { output_formats := ["image/png", "image/tiff"] } }]) :=
  c3_format_resolution_deterministic { sources := [{ collection := "C1" }] }
    { requestedMimeTypes := some ["image/png", "*/*"] }
    { svcA with capabilities := { output_formats := ["image/tiff"] } }
    { svcB with capabilities := { output_formats := ["image/png", "image/tiff"] } }
    rfl rfl rfl rfl

end Harmony
